import Mathlib

/-!
Shallow embedding of `src/main.py` (curses-based NDR TEXT reader): the
navigation state machine (`Teletext.load`, `load_number`, `load_previous`,
`load_next`, `load_previous_sub_page`, `load_next_sub_page`,
`go_back_in_history`), the page-index loader (`Teletext.get_page_info`),
the line-wrapping loop of `Teletext.display_page`, and the color resolution
of `Teletext.classes_to_color_formatter`.

Python strings that are split and parsed are embedded as `List Char`
(`String.splitOn` does not reduce in the kernel); string literals enter
through `String.toList`. Machine integers are `Int` (Python ints are
unbounded, so no wrap-around modelling is needed).
-/

/-! ## Constants (src/main.py lines 18-24, 45-46) -/

def START_PAGE : Int := 100

def APP_WIDTH : Nat := 40

/-! ## Navigation state

Mirrors the mutable attributes of class `Teletext` that the navigation
commands read or write (src/main.py lines 40-48): `start_page`, `page`,
`sub_page`, `current_input`, `history`, `min_page`, `max_page`.
The immutable collaborators (`terminal`, urls, `soup`) and `page_info`
are kept outside the state record; `page_info` is passed explicitly to
every transition, since it is written once at startup.
-/

structure NavState where
  start_page : Int
  page : Int
  sub_page : Int
  current_input : List Int
  history : List (Int × Int)
  min_page : Int
  max_page : Int
deriving Repr, DecidableEq

/-- The page index: a Python `dict` from page number to sub-page count,
embedded as an association list with unique keys kept in insertion order. -/
abbrev PageInfo := List (Int × Int)

/-! ## `Teletext.load` (src/main.py lines 162-188)

```python
if not no_history:
    self.history.append((self.page, self.sub_page))
if page in self.page_info:
    self.page = page
    if sub_page and 1 <= sub_page <= self.page_info[page]:
        self.sub_page = sub_page
    else:
        self.sub_page = 1
else:
    self.page = self.start_page
    self.sub_page = 1
```
The trailing fetch (`urlopen`) and `display_page` call do not touch the
navigation attributes; they are modelled by `loadAttempt` below.
`sub_page=None` is `none`; Python's truthiness test `sub_page and ...`
is the `v ≠ 0 ∧ ...` guard.
-/

def load (info : PageInfo) (page : Int) (sub_page : Option Int)
    (no_history : Bool) (s : NavState) : NavState :=
  let s1 := if no_history then s
    else { s with history := s.history ++ [(s.page, s.sub_page)] }
  match info.lookup page with
  | some cnt =>
    match sub_page with
    | some v =>
      if v ≠ 0 ∧ 1 ≤ v ∧ v ≤ cnt then { s1 with page := page, sub_page := v }
      else { s1 with page := page, sub_page := 1 }
    | none => { s1 with page := page, sub_page := 1 }
  | none => { s1 with page := s1.start_page, sub_page := 1 }

/-- Embeds `Teletext.load` including the fetch at lines 184-187: every state
mutation happens before `urlopen`, and `load` installs no exception
handler, so a fetch or parse failure (`fetchOk` returns `false`) leaves
the already-updated state in place while the exception propagates.
The returned `Bool` is `true` iff fetch and parse succeeded. -/
def loadAttempt (fetchOk : Int → Int → Bool) (info : PageInfo) (page : Int)
    (sub_page : Option Int) (no_history : Bool) (s : NavState) :
    NavState × Bool :=
  let s1 := load info page sub_page no_history s
  (s1, fetchOk s1.page s1.sub_page)

/-- Embeds `Teletext.load_next` (src/main.py lines 208-212) with the fetch
outcome made explicit, as in `loadAttempt`. -/
def load_next_attempt (fetchOk : Int → Int → Bool) (info : PageInfo)
    (s : NavState) : NavState × Bool :=
  loadAttempt fetchOk info (s.page + 1) none false s

/-- Embeds `Teletext.load` when `self.page_info` may still be `None` (its value
from line 44 when `get_page_info` failed): the membership test
`page in self.page_info` at line 173 raises `TypeError` on `None`, and no
caller of `load` handles it, so the call produces no state (`none`). -/
def loadOpt (info : Option PageInfo) (page : Int) (sub_page : Option Int)
    (no_history : Bool) (s : NavState) : Option NavState :=
  match info with
  | none => none
  | some d => some (load d page sub_page no_history s)

/-! ## Navigation commands (src/main.py lines 190-240) -/

/-- Embeds `Teletext.load_number` (lines 190-200).  Besides the state, also
returns the list of page numbers handed to `load` by this call (empty or
a singleton), so that "exactly one navigation attempt" is statable. -/
def load_number (info : PageInfo) (number : Int) (s : NavState) :
    NavState × List Int :=
  let s1 := { s with current_input := s.current_input ++ [number] }
  if s1.current_input.length == 3 then
    let p := s1.current_input.foldl (fun a b => a * 10 + b) 0
    ({ load info p none false s1 with current_input := [] }, [p])
  else
    (s1, [])

/-- Embeds `Teletext.load_previous` (lines 202-206). -/
def load_previous (info : PageInfo) (s : NavState) : NavState :=
  load info (s.page - 1) none false s

/-- Embeds `Teletext.load_next` (lines 208-212). -/
def load_next (info : PageInfo) (s : NavState) : NavState :=
  load info (s.page + 1) none false s

/-- Embeds `Teletext.load_previous_sub_page` (lines 214-221). -/
def load_previous_sub_page (info : PageInfo) (s : NavState) : NavState :=
  if s.sub_page > 1 then load info s.page (some (s.sub_page - 1)) false s
  else load info (s.page - 1) none false s

/-- Embeds `Teletext.load_next_sub_page` (lines 223-230).
`self.page_info[self.page]` is evaluated before any mutation; when the
current page is not a key it raises `KeyError` with the state untouched
(no handler exists), so that branch returns the state unchanged. -/
def load_next_sub_page (info : PageInfo) (s : NavState) : NavState :=
  match info.lookup s.page with
  | some cnt =>
    if s.sub_page < cnt then load info s.page (some (s.sub_page + 1)) false s
    else load info (s.page + 1) none false s
  | none => s

/-- Embeds `Teletext.go_back_in_history` (lines 232-240): `history.pop()` takes
the last element; an empty history raises `IndexError`, which is caught
and ignored. -/
def go_back_in_history (info : PageInfo) (s : NavState) : NavState :=
  match s.history.getLast? with
  | some (page, sub_page) =>
    load info page (some sub_page) true { s with history := s.history.dropLast }
  | none => s

/-! ## Command alphabet and reachability (src/main.py lines 242-277)

The key dispatch table of `handle_events` maps each recognized key to one
of the handlers above; `Cmd` is that alphabet (quit terminates the
process and unknown keys dispatch to `dummy`, so neither changes the
state).
-/

inductive Cmd where
  | digit (n : Int)
  | prevPage
  | nextPage
  | prevSubPage
  | nextSubPage
  | back
deriving Repr, DecidableEq

def step (info : PageInfo) (c : Cmd) (s : NavState) : NavState :=
  match c with
  | .digit n => (load_number info n s).1
  | .prevPage => load_previous info s
  | .nextPage => load_next info s
  | .prevSubPage => load_previous_sub_page info s
  | .nextSubPage => load_next_sub_page info s
  | .back => go_back_in_history info s

/-- The state built by `Teletext.__init__` (lines 34-51): attributes set
to their initial values, then `self.load(self.start_page)`. -/
def init_state (info : PageInfo) : NavState :=
  load info START_PAGE none false
    { start_page := START_PAGE, page := START_PAGE, sub_page := 1,
      current_input := [], history := [], min_page := 100, max_page := 899 }

/-- States reachable from startup by any sequence of commands. -/
inductive Reachable (info : PageInfo) : NavState → Prop where
  | init : Reachable info (init_state info)
  | step (c : Cmd) {s : NavState} :
      Reachable info s → Reachable info (step info c s)

/-! ## `Teletext.get_page_info` (src/main.py lines 147-160)

```python
data_string = response.read().decode().split('{')[1].split('}')[0]
self.page_info = dict(map(
    lambda a: list(map(int, a.split(':'))),
    data_string.split(',')
    ))
```
wrapped in `try/except` that only reports to stderr; on any failure
`self.page_info` keeps its value `None` from line 44.
-/

/-- Python `str.split(sep)` for a single-character separator:
`''.split(sep) == ['']`, and every occurrence of `sep` starts a new
(possibly empty) field. -/
def pySplit (sep : Char) : List Char → List (List Char)
  | [] => [[]]
  | c :: rest =>
    match pySplit sep rest with
    | [] => [[]]
    | h :: t => if c == sep then [] :: h :: t else (c :: h) :: t

/-- Python `str.strip()`: drop whitespace from both ends. -/
def pyStrip (s : List Char) : List Char :=
  ((s.dropWhile Char.isWhitespace).reverse.dropWhile Char.isWhitespace).reverse

def digitsToInt (ds : List Char) : Int :=
  ds.foldl (fun a c => a * 10 + ((c.toNat : Int) - 48)) 0

/-- Python `int(str)`: optional surrounding whitespace, optional sign,
then at least one decimal digit; anything else raises `ValueError`
(`none`). -/
def pyInt (s : List Char) : Option Int :=
  match pyStrip s with
  | [] => none
  | '-' :: ds =>
    if ds ≠ [] ∧ ds.all Char.isDigit then some (-(digitsToInt ds)) else none
  | '+' :: ds =>
    if ds ≠ [] ∧ ds.all Char.isDigit then some (digitsToInt ds) else none
  | ds => if ds.all Char.isDigit then some (digitsToInt ds) else none

/-- One step of Python `dict(pairs)` construction: a duplicate key
overwrites the stored value in place, a fresh key is appended. -/
def dictInsert (d : PageInfo) (kv : Int × Int) : PageInfo :=
  if d.any (fun p => p.1 == kv.1) then
    d.map (fun p => if p.1 == kv.1 then (p.1, kv.2) else p)
  else d ++ [kv]

/-- Python `dict(iterable)` over the parsed entries: every element must
be a two-element sequence (otherwise `ValueError`, i.e. `none`), and
entries are inserted left to right with `dictInsert`. -/
def pyDict : List (List Int) → PageInfo → Option PageInfo
  | [], d => some d
  | [k, v] :: rest, d => pyDict rest (dictInsert d (k, v))
  | _ :: _, _ => none

/-- Embeds `list(map(int, a.split(':')))` for one comma-separated entry. -/
def parseEntry (a : List Char) : Option (List Int) :=
  (pySplit ':' a).mapM pyInt

/-- Embeds `dict(map(lambda a: list(map(int, a.split(':'))), data_string.split(',')))`. -/
def parse_page_info (data_string : List Char) : Option PageInfo :=
  match (pySplit ',' data_string).mapM parseEntry with
  | some entries => pyDict entries []
  | none => none

/-- Embeds `Teletext.get_page_info` (lines 147-160).  `doc = none` is a failed
fetch of `pages.js`; `split('{')[1]` raises `IndexError` when the
document has no brace.  Any raised error is caught by the broad `except`,
leaving `page_info` at `None` (`none`). -/
def get_page_info (doc : Option String) : Option PageInfo :=
  match doc with
  | none => none
  | some text =>
    match pySplit '\x7b' text.toList with
    | _ :: after_brace :: _ =>
      parse_page_info ((pySplit '\x7d' after_brace).headD after_brace)
    | _ => none

/-! ## Line wrapping (src/main.py lines 126-135, inside `display_page`)

```python
lines = []
current_line = []
for element in txt.children:
    if element.name == 'b':
        if reduce(operator.add, map(
                lambda a: len(a.text), current_line), 0) + len(element.text) > self.width:
            lines.append(current_line)
            current_line = []
        current_line.append(element)
lines.append(current_line)
```
A `Run` is one `<b>` element: its text and its css classes.
-/

structure Run where
  text : String
  classes : List String
deriving Repr, DecidableEq

/-- Embeds `reduce(operator.add, map(lambda a: len(a.text), current_line), 0)`. -/
def line_len (line : List Run) : Nat :=
  line.foldl (fun a r => a + r.text.length) 0

def wrap_step (width : Nat) (acc : List (List Run) × List Run)
    (element : Run) : List (List Run) × List Run :=
  if line_len acc.2 + element.text.length > width then
    (acc.1 ++ [acc.2], [element])
  else
    (acc.1, acc.2 ++ [element])

def wrap (runs : List Run) (width : Nat) : List (List Run) :=
  let acc := runs.foldl (wrap_step width) ([], [])
  acc.1 ++ [acc.2]

/-! ## `Teletext.classes_to_color_formatter` (src/main.py lines 69-102) -/

/-- The `colors` dict (lines 80-89).  The final `colors[fgc]` lookup is
only ever applied to keys set from the guarded branches or the defaults,
all in `'0'..'7'`; the impossible `KeyError` arm returns `""`. -/
def colors : Char → String
  | '0' => "black"
  | '1' => "red"
  | '2' => "green"
  | '3' => "yellow"
  | '4' => "blue"
  | '5' => "magenta"
  | '6' => "cyan"
  | '7' => "white"
  | _ => ""

def bg_classes : List String := ["b0", "b1", "b2", "b3", "b4", "b5", "b6", "b7"]

def fg_classes : List String := ["f0", "f1", "f2", "f3", "f4", "f5", "f6", "f7"]

/-- Loop body of lines 94-98: `class_[1]` is the digit character. -/
def color_fold (fb : Char × Char) (class_ : String) : Char × Char :=
  if class_ ∈ bg_classes then (fb.1, class_.toList.getD 1 ' ')
  else if class_ ∈ fg_classes then (class_.toList.getD 1 ' ', fb.2)
  else fb

/-- The `(fgc, bgc)` pair after the scan, from defaults `('7', '0')`. -/
def resolveFB (classes : List String) : Char × Char :=
  classes.foldl color_fold ('7', '0')

/-- Embeds `Teletext.classes_to_color_formatter`, reduced to the name of the
blessed formatter it selects: `f'{colors[fgc]}_on_{colors[bgc]}'`. -/
def classes_to_color_formatter (classes : List String) : String :=
  let fb := resolveFB classes
  colors fb.1 ++ "_on_" ++ colors fb.2

/-! ## Helper lemmas -/

theorem mem_of_lookup_eq_some {l : List (Int × Int)} {k v : Int}
    (h : l.lookup k = some v) : (k, v) ∈ l := by
  induction l with
  | nil => simp [List.lookup] at h
  | cons p t ih =>
    rw [List.lookup] at h
    by_cases hk : k == p.1
    · simp [hk] at h
      obtain ⟨a, b⟩ := p
      simp only [beq_iff_eq] at hk
      simp at h
      subst hk
      subst h
      exact List.mem_cons_self _ _
    · simp [hk] at h
      exact List.mem_cons_of_mem _ (ih h)

theorem mapM_eq_none_of_mem {α β : Type} {l : List α} {f : α → Option β} {x : α}
    (hx : x ∈ l) (h : f x = none) : l.mapM f = none := by
  induction l with
  | nil => simp at hx
  | cons a t ih =>
    rw [List.mapM_cons]
    rcases List.mem_cons.mp hx with rfl | hx
    · simp [h]
    · cases ha : f a
      · simp [ha]
      · simp only [ha, ih hx, Option.bind_eq_bind, Option.some_bind, Option.none_bind]

/-! ### Field lemmas for `load` -/

theorem load_start_page (info : PageInfo) (p : Int) (sub : Option Int)
    (nh : Bool) (s : NavState) :
    (load info p sub nh s).start_page = s.start_page := by
  cases nh <;> simp [load] <;> split <;> (try split) <;> (try split) <;> rfl

theorem load_current_input (info : PageInfo) (p : Int) (sub : Option Int)
    (nh : Bool) (s : NavState) :
    (load info p sub nh s).current_input = s.current_input := by
  cases nh <;> simp [load] <;> split <;> (try split) <;> (try split) <;> rfl

theorem load_min_page (info : PageInfo) (p : Int) (sub : Option Int)
    (nh : Bool) (s : NavState) :
    (load info p sub nh s).min_page = s.min_page := by
  cases nh <;> simp [load] <;> split <;> (try split) <;> (try split) <;> rfl

theorem load_max_page (info : PageInfo) (p : Int) (sub : Option Int)
    (nh : Bool) (s : NavState) :
    (load info p sub nh s).max_page = s.max_page := by
  cases nh <;> simp [load] <;> split <;> (try split) <;> (try split) <;> rfl

theorem load_history_push (info : PageInfo) (p : Int) (sub : Option Int)
    (s : NavState) :
    (load info p sub false s).history = s.history ++ [(s.page, s.sub_page)] := by
  simp [load]
  split <;> (try split) <;> (try split) <;> rfl

theorem load_history_no_push (info : PageInfo) (p : Int) (sub : Option Int)
    (s : NavState) :
    (load info p sub true s).history = s.history := by
  simp [load]
  split <;> (try split) <;> (try split) <;> rfl

theorem load_page_of_lookup_some (info : PageInfo) {p cnt : Int}
    (sub : Option Int) (nh : Bool) (s : NavState)
    (h : info.lookup p = some cnt) :
    (load info p sub nh s).page = p := by
  cases nh <;> simp [load, h] <;> cases sub <;> simp <;> split <;> rfl

theorem load_of_lookup_none (info : PageInfo) {p : Int} (sub : Option Int)
    (nh : Bool) (s : NavState) (h : info.lookup p = none) :
    (load info p sub nh s).page = s.start_page ∧
      (load info p sub nh s).sub_page = 1 := by
  cases nh <;> simp [load, h]

/-- The sub-page clamp invariant of a state. -/
def SubPageOk (info : PageInfo) (s : NavState) : Prop :=
  ∀ cnt : Int, info.lookup s.page = some cnt →
    1 ≤ s.sub_page ∧ s.sub_page ≤ cnt

theorem load_sub_page_ok (info : PageInfo)
    (hval : ∀ kv ∈ info, 1 ≤ kv.2) (p : Int) (sub : Option Int) (nh : Bool)
    (s : NavState) : SubPageOk info (load info p sub nh s) := by
  intro cnt h
  cases hl : info.lookup p with
  | none =>
    obtain ⟨hp, hs⟩ := load_of_lookup_none info sub nh s hl
    rw [hs]
    rw [hp] at h
    exact ⟨le_refl 1, hval _ (mem_of_lookup_eq_some h)⟩
  | some c =>
    rw [load_page_of_lookup_some info sub nh s hl, hl] at h
    obtain rfl : c = cnt := by injection h
    have hc : 1 ≤ c := hval _ (mem_of_lookup_eq_some hl)
    cases nh <;> simp [load, hl] <;> cases sub <;> simp
    · exact hc
    · split
      · next hv => exact ⟨hv.2.1, hv.2.2⟩
      · simp [hc]
    · exact hc
    · split
      · next hv => exact ⟨hv.2.1, hv.2.2⟩
      · simp [hc]

theorem sub_page_ok_of_page_sub_eq {info : PageInfo} {s t : NavState}
    (h : SubPageOk info s) (hp : t.page = s.page) (hs : t.sub_page = s.sub_page) :
    SubPageOk info t := by
  intro cnt hc
  rw [hp] at hc
  rw [hs]
  exact h cnt hc

theorem step_sub_page_ok (info : PageInfo)
    (hval : ∀ kv ∈ info, 1 ≤ kv.2) (c : Cmd) (s : NavState)
    (h : SubPageOk info s) : SubPageOk info (step info c s) := by
  cases c with
  | digit n =>
    simp only [step, load_number]
    split
    · exact sub_page_ok_of_page_sub_eq (load_sub_page_ok info hval _ _ _ _) rfl rfl
    · exact sub_page_ok_of_page_sub_eq h rfl rfl
  | prevPage => exact load_sub_page_ok info hval _ _ _ _
  | nextPage => exact load_sub_page_ok info hval _ _ _ _
  | prevSubPage =>
    simp only [step, load_previous_sub_page]
    split
    · exact load_sub_page_ok info hval _ _ _ _
    · exact load_sub_page_ok info hval _ _ _ _
  | nextSubPage =>
    simp only [step, load_next_sub_page]
    split
    · split
      · exact load_sub_page_ok info hval _ _ _ _
      · exact load_sub_page_ok info hval _ _ _ _
    · exact h
  | back =>
    simp only [step, go_back_in_history]
    split
    · exact load_sub_page_ok info hval _ _ _ _
    · exact h

theorem reachable_sub_page_ok (info : PageInfo)
    (hval : ∀ kv ∈ info, 1 ≤ kv.2) (s : NavState)
    (h : Reachable info s) : SubPageOk info s := by
  induction h with
  | init => exact load_sub_page_ok info hval _ _ _ _
  | step c _ ih => exact step_sub_page_ok info hval c _ ih

/-! ### Lemmas for the wrapping loop -/

theorem foldl_len_init (l : List Run) (n : Nat) :
    l.foldl (fun a r => a + r.text.length) n =
      n + l.foldl (fun a r => a + r.text.length) 0 := by
  induction l generalizing n with
  | nil => simp
  | cons a t ih =>
    rw [List.foldl_cons, List.foldl_cons, ih (n + a.text.length),
      ih (0 + a.text.length)]
    omega

theorem line_len_cons (a : Run) (t : List Run) :
    line_len (a :: t) = a.text.length + line_len t := by
  simp only [line_len, List.foldl_cons]
  rw [foldl_len_init]
  omega

theorem line_len_append_single (l : List Run) (r : Run) :
    line_len (l ++ [r]) = line_len l + r.text.length := by
  simp only [line_len, List.foldl_append, List.foldl_cons, List.foldl_nil]

theorem le_line_len_of_mem {r : Run} {l : List Run} (h : r ∈ l) :
    r.text.length ≤ line_len l := by
  induction l with
  | nil => simp at h
  | cons a t ih =>
    rw [line_len_cons]
    rcases List.mem_cons.mp h with rfl | h
    · exact Nat.le_add_right _ _
    · exact le_trans (ih h) (Nat.le_add_left _ _)

/-- A produced line is within the width bound unless it is a single
over-width run. -/
def LineOk (w : Nat) (line : List Run) : Prop :=
  line_len line ≤ w ∨ ∃ r, line = [r] ∧ w < r.text.length

theorem wrap_foldl_flatten (w : Nat) (runs : List Run) :
    ∀ (lines : List (List Run)) (current : List Run),
      (runs.foldl (wrap_step w) (lines, current)).1.flatten ++
          (runs.foldl (wrap_step w) (lines, current)).2 =
        lines.flatten ++ current ++ runs := by
  induction runs with
  | nil => intro lines current; simp
  | cons r rest ih =>
    intro lines current
    rw [List.foldl_cons]
    dsimp only [wrap_step]
    by_cases h : line_len current + r.text.length > w
    · rw [if_pos h, ih]
      simp [List.flatten_append]
    · rw [if_neg h, ih]
      simp

theorem wrap_foldl_line_ok (w : Nat) (runs : List Run) :
    ∀ (lines : List (List Run)) (current : List Run),
      (∀ l ∈ lines, LineOk w l) → LineOk w current →
      (∀ l ∈ (runs.foldl (wrap_step w) (lines, current)).1, LineOk w l) ∧
        LineOk w (runs.foldl (wrap_step w) (lines, current)).2 := by
  induction runs with
  | nil => intro lines current hl hc; exact ⟨hl, hc⟩
  | cons r rest ih =>
    intro lines current hl hc
    rw [List.foldl_cons]
    dsimp only [wrap_step]
    by_cases h : line_len current + r.text.length > w
    · rw [if_pos h]
      apply ih
      · intro l hmem
        rcases List.mem_append.mp hmem with h1 | h1
        · exact hl l h1
        · obtain rfl := List.mem_singleton.mp h1
          exact hc
      · by_cases hr : r.text.length ≤ w
        · left
          rw [line_len_cons]
          simpa [line_len] using hr
        · right
          exact ⟨r, rfl, Nat.lt_of_not_le hr⟩
    · rw [if_neg h]
      apply ih _ _ hl
      left
      rw [line_len_append_single]
      omega

theorem wrap_flatten (runs : List Run) (w : Nat) :
    (wrap runs w).flatten = runs := by
  have h := wrap_foldl_flatten w runs [] []
  simp only [List.flatten_nil, List.nil_append] at h
  rw [wrap]
  rw [List.flatten_append]
  simpa using h

theorem wrap_line_ok (runs : List Run) (w : Nat) :
    ∀ l ∈ wrap runs w, LineOk w l := by
  have h := wrap_foldl_line_ok w runs [] [] (by simp)
    (Or.inl (by simp [line_len]))
  intro l hm
  rw [wrap] at hm
  rcases List.mem_append.mp hm with h1 | h1
  · exact h.1 l h1
  · obtain rfl := List.mem_singleton.mp h1
    exact h.2

/-! ### Lemmas for color resolution and the index parser -/

theorem fg_not_bg {t : String} (h : t ∈ fg_classes) : t ∉ bg_classes := by
  fin_cases h <;> decide

theorem dictInsert_fresh {d : PageInfo} {k v : Int}
    (h : ∀ q ∈ d, q.1 ≠ k) : dictInsert d (k, v) = d ++ [(k, v)] := by
  rw [dictInsert, if_neg]
  simp only [List.any_eq_true, not_exists]
  intro q
  rw [not_and]
  intro hq hbeq
  exact h q hq (by simpa [beq_iff_eq] using hbeq)

theorem pyDict_nodup : ∀ (kvs : List (Int × Int)) (d : PageInfo),
    (∀ kv ∈ kvs, ∀ q ∈ d, q.1 ≠ kv.1) → (kvs.map Prod.fst).Nodup →
    pyDict (kvs.map fun kv => [kv.1, kv.2]) d = some (d ++ kvs) := by
  intro kvs
  induction kvs with
  | nil => intro d _ _; simp [pyDict]
  | cons kv rest ih =>
    intro d hfresh hnd
    obtain ⟨k, v⟩ := kv
    simp only [List.map_cons]
    rw [pyDict]
    rw [dictInsert_fresh (fun q hq => hfresh (k, v) (List.mem_cons_self _ _) q hq)]
    rw [ih (d ++ [(k, v)]) ?_ (List.nodup_cons.mp (by simpa using hnd)).2]
    · simp
    · intro kv2 h2 q hq
      rcases List.mem_append.mp hq with hq | hq
      · exact hfresh kv2 (List.mem_cons_of_mem _ h2) q hq
      · obtain rfl := List.mem_singleton.mp hq
        intro hk
        have hk2 : k = kv2.1 := hk
        have : k ∈ rest.map Prod.fst := by
          rw [hk2]
          exact List.mem_map_of_mem _ h2
        exact (List.nodup_cons.mp (by simpa using hnd)).1 this

theorem go_back_eq_of_getLast (info : PageInfo) (s : NavState) (p sp : Int)
    (h : s.history.getLast? = some (p, sp)) :
    go_back_in_history info s =
      load info p (some sp) true { s with history := s.history.dropLast } := by
  rw [go_back_in_history, h]

/-! ## Claim theorems -/

/-- Claim C1, counterexample: `ContentFetcher` fails during a next-page
navigation from `(100, 1)` with an empty history.  The post-failure state
is not the pre-attempt state: `current_page` is already `101` and the
history entry `(100, 1)` pushed for the attempted navigation remains, so
the claimed rollback does not happen. -/
theorem fetch_failure_rollback_cex :
    let s0 : NavState := ⟨100, 100, 1, [], [], 100, 899⟩
    let r := load_next_attempt (fun _ _ => false) [(100, 2), (101, 1)] s0
    r.2 = false ∧ r.1 ≠ s0 ∧ r.1.page = 101 ∧ r.1.sub_page = 1 ∧
      r.1.history = [(100, 1)] := by
  decide

/-- Claim C1 (amended): if the content fetch or the markup parse fails
mid-navigation, no rollback occurs.  All state mutations of
`Teletext.load` happen before the fetch, so independently of the fetch
outcome the post-attempt state is the fully updated one, and for a
history-pushing navigation the entry `(pre_page, pre_sub_page)` stays on
the history stack while the exception propagates uncaught. -/
theorem fetch_failure_state_persists (fetchOk : Int → Int → Bool)
    (info : PageInfo) (p : Int) (sub : Option Int) (s : NavState) :
    (loadAttempt fetchOk info p sub false s).1 = load info p sub false s ∧
      (loadAttempt fetchOk info p sub false s).1.history =
        s.history ++ [(s.page, s.sub_page)] :=
  ⟨rfl, load_history_push info p sub s⟩

/-- Claim C2: when the startup index load fails, `page_info` stays
`None`, and the very next `load` evaluates `page in None`, which raises
`TypeError` with no handler anywhere on the call path: the process
crashes rather than proceeding with every page treated as unknown. -/
theorem index_failure_crashes :
    get_page_info none = none ∧
      ∀ (p : Int) (sub : Option Int) (nh : Bool) (s : NavState),
        loadOpt (get_page_info none) p sub nh s = none :=
  ⟨rfl, fun _ _ _ _ => rfl⟩

/-- Claim C3, counterexample: a directory document whose body repeats the
key `100` loads successfully — Python `dict` lets the last occurrence
win — instead of failing as the claim requires, and the resulting mapping
is not the set of literal pairs present in the document. -/
theorem duplicate_key_load_cex :
    get_page_info (some ("var p=\x7b100:2,100:3\x7d;")) = some [(100, 3)] ∧
      get_page_info (some ("var p=\x7b100:2,100:3\x7d;")) ≠ none := by
  decide

/-- Claim C3 (amended): the page-index load is all-or-nothing for
unparsable entries: any entry whose fields do not all parse as integers
fails the whole load with no partial mapping; a duplicate key does not
fail the load (the last occurrence wins); and for a well-formed document
with pairwise-distinct keys the resulting mapping equals exactly the
literal key:value pairs present. -/
theorem page_info_all_or_nothing (body : List Char) (e : List Char)
    (kvs : List (Int × Int)) :
    (e ∈ pySplit ',' body → parseEntry e = none →
      parse_page_info body = none) ∧
    ((pySplit ',' body).mapM parseEntry =
        some (kvs.map fun kv => [kv.1, kv.2]) →
      (kvs.map Prod.fst).Nodup → parse_page_info body = some kvs) := by
  constructor
  · intro he hp
    rw [parse_page_info, mapM_eq_none_of_mem he hp]
  · intro hm hnd
    rw [parse_page_info, hm]
    have h := pyDict_nodup kvs [] (by simp) hnd
    simpa using h

/-- Witness for the amended C3: entry `abc:3` has a non-integer key, so
the whole load of `100:2,abc:3` fails; and the distinct-keys document
`100:2,101:1` loads to exactly its literal pairs. -/
theorem page_info_all_or_nothing_witness :
    parse_page_info ("100:2,abc:3".toList) = none ∧
      parse_page_info ("100:2,101:1".toList) = some [(100, 2), (101, 1)] :=
  ⟨(page_info_all_or_nothing ("100:2,abc:3".toList) ("abc:3".toList) []).1
      (by decide) (by decide),
    (page_info_all_or_nothing ("100:2,101:1".toList) [] [(100, 2), (101, 1)]).2
      (by decide) (by decide)⟩

/-- Claim C5: for every ordered list of styled runs and every width, the
wrap loop never splits a run across lines: flattening the output lines
gives back exactly the input runs in order (hence the concatenation of
all run texts is preserved — no data loss, no duplication), and any line
containing an over-width run consists of that single run. -/
theorem wrap_no_split_no_loss (runs : List Run) (w : Nat) :
    (wrap runs w).flatten = runs ∧
    String.join (((wrap runs w).flatten).map fun r => r.text) =
      String.join (runs.map fun r => r.text) ∧
    ∀ line ∈ wrap runs w, ∀ r ∈ line, w < r.text.length → line = [r] := by
  refine ⟨wrap_flatten runs w, by rw [wrap_flatten], ?_⟩
  intro line hline r hr hw
  rcases wrap_line_ok runs w line hline with h | ⟨r2, rfl, _⟩
  · exact absurd (le_trans (le_line_len_of_mem hr) h) (Nat.not_le_of_lt hw)
  · obtain rfl := List.mem_singleton.mp hr
    rfl

/-- Witness for C5 at width 3 with the over-width run `"hello"` and at
width 7 with two runs. -/
theorem wrap_no_split_no_loss_witness :
    (wrap [Run.mk ("four") [], Run.mk ("ab") []] 7).flatten =
        [Run.mk ("four") [], Run.mk ("ab") []] ∧
      [Run.mk ("hello") []] = [Run.mk ("hello") []] :=
  ⟨(wrap_no_split_no_loss [Run.mk ("four") [], Run.mk ("ab") []] 7).1,
    (wrap_no_split_no_loss [Run.mk ("hello") []] 3).2.2 [Run.mk ("hello") []]
      (by decide) (Run.mk ("hello") []) (by decide) (by decide)⟩

/-- Claim C6: every produced line is within the width bound unless it is
a single over-width run; the wrap loop always pushes the final
accumulated line, so the output is never empty and wrapping zero runs
produces exactly one empty line. -/
theorem wrap_width_bound (runs : List Run) (w : Nat) :
    (∀ line ∈ wrap runs w,
        line_len line ≤ w ∨ ∃ r, line = [r] ∧ w < r.text.length) ∧
      wrap runs w ≠ [] ∧ wrap ([] : List Run) w = [[]] := by
  refine ⟨wrap_line_ok runs w, ?_, rfl⟩
  rw [wrap]
  simp

/-- Witness for C6: the width bound evaluated on a concrete wrap. -/
theorem wrap_width_bound_witness :
    line_len [Run.mk ("four") [], Run.mk ("ab") []] ≤ 7 ∨
      ∃ r, [Run.mk ("four") [], Run.mk ("ab") []] = [r] ∧ 7 < r.text.length :=
  (wrap_width_bound [Run.mk ("four") [], Run.mk ("ab") []] 7).1
    [Run.mk ("four") [], Run.mk ("ab") []] (by decide)

/-- Claim C7: color resolution scans tags in order with
last-matching-tag-of-each-kind-wins semantics: a recognized background
tag overwrites any earlier background choice, a recognized foreground
tag overwrites any earlier foreground choice, unrecognized tags are
ignored, the defaults are foreground white on background black, and in
particular `['f1', 'b0', 'f3']` resolves to yellow on black and `[]` to
white on black. -/
theorem color_last_tag_wins (l : List String) (t : String) :
    classes_to_color_formatter [] = "white_on_black" ∧
    classes_to_color_formatter ["f1", "b0", "f3"] = "yellow_on_black" ∧
    resolveFB [] = ('7', '0') ∧
    (t ∈ bg_classes →
      resolveFB (l ++ [t]) = ((resolveFB l).1, t.toList.getD 1 ' ')) ∧
    (t ∈ fg_classes →
      resolveFB (l ++ [t]) = (t.toList.getD 1 ' ', (resolveFB l).2)) ∧
    (t ∉ bg_classes → t ∉ fg_classes → resolveFB (l ++ [t]) = resolveFB l) := by
  refine ⟨by decide, by decide, rfl, ?_, ?_, ?_⟩
  · intro h
    simp only [resolveFB, List.foldl_append, List.foldl_cons, List.foldl_nil,
      color_fold, if_pos h]
  · intro h
    simp only [resolveFB, List.foldl_append, List.foldl_cons, List.foldl_nil,
      color_fold]
    rw [if_neg (fg_not_bg h), if_pos h]
  · intro h1 h2
    simp only [resolveFB, List.foldl_append, List.foldl_cons, List.foldl_nil,
      color_fold]
    rw [if_neg h1, if_neg h2]

/-- Witness for C7: the last background tag `b4` overwrites the earlier
`b0` on a concrete tag sequence. -/
theorem color_last_tag_wins_witness :
    resolveFB (["f1", "b0"] ++ ["b4"]) =
      ((resolveFB ["f1", "b0"]).1, "b4".toList.getD 1 ' ') :=
  (color_last_tag_wins ["f1", "b0"] "b4").2.2.2.1 (by decide)

/-- Claim C4: on every state reachable from startup by navigation
commands, whenever the current page is a key of the loaded page index
(whose sub-page counts are positive, per the PageIndex data model),
`1 ≤ current_sub_page ≤ sub_page_count(current_page)`; and whenever a
requested page is not in the index, `load` falls back to the configured
start page with sub-page 1. -/
theorem reachable_sub_page_invariant (info : PageInfo) (s : NavState)
    (hval : ∀ kv ∈ info, 1 ≤ kv.2) (hr : Reachable info s) :
    (∀ cnt : Int, info.lookup s.page = some cnt →
        1 ≤ s.sub_page ∧ s.sub_page ≤ cnt) ∧
    ∀ (p : Int) (sub : Option Int) (nh : Bool) (t : NavState),
      info.lookup p = none →
      (load info p sub nh t).page = t.start_page ∧
        (load info p sub nh t).sub_page = 1 :=
  ⟨reachable_sub_page_ok info hval s hr,
    fun _ sub nh t h => load_of_lookup_none info sub nh t h⟩

/-- Witness for C4 at the startup state over the index
`{100: 2, 101: 1}`, and the fallback evaluated at the unknown page 500. -/
theorem reachable_sub_page_invariant_witness :
    (1 ≤ (init_state [(100, 2), (101, 1)]).sub_page ∧
        (init_state [(100, 2), (101, 1)]).sub_page ≤ 2) ∧
      (load [(100, 2), (101, 1)] 500 none false
            (init_state [(100, 2), (101, 1)])).page = 100 ∧
        (load [(100, 2), (101, 1)] 500 none false
            (init_state [(100, 2), (101, 1)])).sub_page = 1 :=
  ⟨(reachable_sub_page_invariant [(100, 2), (101, 1)] _ (by decide)
        Reachable.init).1 2 (by decide),
    (reachable_sub_page_invariant [(100, 2), (101, 1)] _ (by decide)
        Reachable.init).2 500 none false _ (by decide)⟩

/-- Claim C8: starting from an empty digit accumulator, feeding the
digits 1, 0, 0 triggers no navigation attempt on the first two digits,
leaves `current_input` at length 2 after two digits, and on the third
digit yields exactly one navigate-to-page attempt with page number 100
(the base-10 reading of the digits) and empties `current_input`. -/
theorem load_number_accumulation (info : PageInfo) (s : NavState)
    (h : s.current_input = []) :
    (load_number info 1 s).2 = [] ∧
    (load_number info 0 (load_number info 1 s).1).2 = [] ∧
    (load_number info 0 (load_number info 1 s).1).1.current_input.length = 2 ∧
    (load_number info 0
        (load_number info 0 (load_number info 1 s).1).1).2 = [100] ∧
    (load_number info 0
        (load_number info 0 (load_number info 1 s).1).1).1.current_input
      = [] := by
  simp [load_number, h]

/-- Witness for C8 at a concrete startup-like state. -/
theorem load_number_accumulation_witness :
    (load_number [(100, 2)] 0
        (load_number [(100, 2)] 0
          (load_number [(100, 2)] 1 ⟨100, 100, 1, [], [], 100, 899⟩).1).1).2
      = [100] :=
  (load_number_accumulation [(100, 2)] ⟨100, 100, 1, [], [], 100, 899⟩
      rfl).2.2.2.1

/-- Claim C9: from a state `(page=100, sub_page=1)` with empty history
(and the configured start page 100), navigating to page 101 and then
going back restores exactly `(100, 1)` with an empty history — the
replay pops the entry and loads it without pushing — and going back on
an empty history is a no-op. -/
theorem history_round_trip (info : PageInfo) (s : NavState)
    (h1 : s.start_page = 100) (h2 : s.page = 100) (h3 : s.sub_page = 1)
    (h4 : s.history = []) :
    ((go_back_in_history info (load info 101 none false s)).page = 100 ∧
      (go_back_in_history info (load info 101 none false s)).sub_page = 1 ∧
      (go_back_in_history info (load info 101 none false s)).history = []) ∧
    ∀ t : NavState, t.history = [] → go_back_in_history info t = t := by
  constructor
  · have hh : (load info 101 none false s).history = [(100, 1)] := by
      rw [load_history_push, h4, h2, h3]
      rfl
    have hsp : (load info 101 none false s).start_page = 100 := by
      rw [load_start_page, h1]
    rw [go_back_eq_of_getLast info _ 100 1 (by rw [hh]; rfl)]
    cases hl : info.lookup (100 : Int) with
    | some c =>
      refine ⟨load_page_of_lookup_some info _ _ _ hl, ?_, ?_⟩
      · simp [load, hl]
      · rw [load_history_no_push]
        show (load info 101 none false s).history.dropLast = []
        rw [hh]
        rfl
    | none =>
      obtain ⟨hp, hs⟩ := load_of_lookup_none info (some 1) true _ hl
      refine ⟨?_, hs, ?_⟩
      · rw [hp]
        exact hsp
      · rw [load_history_no_push]
        show (load info 101 none false s).history.dropLast = []
        rw [hh]
        rfl
  · intro t ht
    rw [go_back_in_history, ht]
    rfl

/-- Witness for C9 over the index `{100: 2, 101: 1}`. -/
theorem history_round_trip_witness :
    (go_back_in_history [(100, 2), (101, 1)]
        (load [(100, 2), (101, 1)] 101 none false
          ⟨100, 100, 1, [], [], 100, 899⟩)).page = 100 :=
  (history_round_trip [(100, 2), (101, 1)] ⟨100, 100, 1, [], [], 100, 899⟩
      rfl rfl rfl rfl).1.1

/-- Claim C10: the bounds `min_page`/`max_page` stored by `__init__` are
never consulted (nor modified) by any navigation command: the state
reached by any command is the same whatever those two fields hold, with
the fields themselves merely carried along; a page's validity is decided
solely by membership in the loaded index (`load` goes to `p` exactly when
`p` is a key, else to the start page); and any three entered digits —
including `0,5,0` and `9,9,9`, outside the 100-899 bounds — trigger a
navigation attempt for their base-10 value. -/
theorem min_max_page_not_consulted (info : PageInfo) (c : Cmd)
    (s : NavState) (m M : Int) (p : Int) (sub : Option Int) (nh : Bool) :
    (step info c { s with min_page := m, max_page := M } =
        { step info c s with min_page := m, max_page := M }) ∧
    ((info.lookup p).isSome → (load info p sub nh s).page = p) ∧
    (info.lookup p = none → (load info p sub nh s).page = s.start_page) ∧
    ∀ t : NavState, t.current_input = [] →
      (load_number info 0
          ((load_number info 5 ((load_number info 0 t).1)).1)).2 = [50] ∧
      (load_number info 9
          ((load_number info 9 ((load_number info 9 t).1)).1)).2 = [999] := by
  refine ⟨?_, ?_, ?_, ?_⟩
  · obtain ⟨a1, a2, a3, ci, hist, mp, Mp⟩ := s
    cases c <;>
        simp [step, load_number, load_previous, load_next,
          load_previous_sub_page, load_next_sub_page, go_back_in_history,
          load] <;>
      repeat' split
    all_goals rfl
  · intro h
    cases hl : info.lookup p with
    | none => rw [hl] at h; simp at h
    | some cnt => exact load_page_of_lookup_some info _ _ _ hl
  · intro h
    exact (load_of_lookup_none info sub nh s h).1
  · intro t ht
    constructor <;> simp [load_number, ht]

/-- Witness for C10 over the index `{100: 2}`: page 100 is reached
because it is a key, page 500 falls back because it is not, and the
digits 0,5,0 / 9,9,9 each yield one attempt. -/
theorem min_max_page_not_consulted_witness :
    (load [(100, 2)] 100 none false ⟨100, 100, 1, [], [], 100, 899⟩).page
        = 100 ∧
      (load [(100, 2)] 500 none false ⟨100, 100, 1, [], [], 100, 899⟩).page
        = 100 ∧
      (load_number [(100, 2)] 0
          ((load_number [(100, 2)] 5
            ((load_number [(100, 2)] 0
              ⟨100, 100, 1, [], [], 100, 899⟩).1)).1)).2 = [50] :=
  ⟨(min_max_page_not_consulted [(100, 2)] Cmd.back _ 0 0 100 none false).2.1
      (by decide),
    (min_max_page_not_consulted [(100, 2)] Cmd.back _ 0 0 500 none false).2.2.1
      (by decide),
    ((min_max_page_not_consulted [(100, 2)] Cmd.back
        ⟨100, 100, 1, [], [], 100, 899⟩ 0 0 500 none false).2.2.2
      ⟨100, 100, 1, [], [], 100, 899⟩ rfl).1⟩
